import Mathlib

set_option maxRecDepth 4000

/-!
Shallow embedding of the query-routing orchestration core of the telecom
assistant repository: `orchestration/graph.py`, `orchestration/state.py`
and `utils/database.py`.  Python dictionaries threaded through the graph
become a Lean structure; each pipeline node becomes a pure Lean function;
the outcome of every external call (the classifier LLM, each handler
backend, a backend module import) is passed in explicitly as an
`Except String _` value, where `Except.error e` stands for the call raising
an exception whose `str` is `e`.
-/

/-! ### Python string primitives, modelled on `List Char` -/

/-- Model of Python `str.strip()`: drop leading and trailing whitespace. -/
def pyStrip (s : String) : String :=
  ⟨((s.data.dropWhile Char.isWhitespace).reverse.dropWhile Char.isWhitespace).reverse⟩

/-- Model of Python `str.lower()`: lower-case every character. -/
def pyLower (s : String) : String :=
  ⟨s.data.map Char.toLower⟩

/-- Model of Python `len(s)` on a string: number of characters. -/
def pyLen (s : String) : Nat :=
  s.data.length

/-- Does `hay` start with `needle`?  Helper for the Python substring test. -/
def pyStartsWith : List Char → List Char → Bool
  | [], _ => true
  | _ :: _, [] => false
  | a :: as, b :: bs => a == b && pyStartsWith as bs

/-- Substring test on character lists: `needle` occurs contiguously in `hay`. -/
def pyInAux (needle : List Char) : List Char → Bool
  | [] => pyStartsWith needle []
  | a :: t => if pyStartsWith needle (a :: t) then true else pyInAux needle t

/-- Model of Python `needle in hay` on strings: contiguous substring test. -/
def pyIn (needle hay : String) : Bool :=
  pyInAux needle.data hay.data

/-- Model of Python `d.get(k, default)` on a string-valued dict. -/
def dictGet (d : List (String × String)) (k default_ : String) : String :=
  match d.lookup k with
  | some v => v
  | none => default_

/-- Model of Python `d.get(k)` on a string-valued dict (default `None`). -/
def dictGetOpt (d : List (String × String)) (k : String) : Option String :=
  d.lookup k

/-! ### `orchestration/state.py` : `TelecomAssistantState` -/

/-- The `TelecomAssistantState` TypedDict from `orchestration/state.py`. -/
structure TelecomAssistantState where
  query : String
  customer_info : List (String × String)
  classification : String
  intermediate_responses : List (String × String)
  final_response : String
  chat_history : List (String × String)
  error : Option String
deriving Repr, DecidableEq

/-! ### `classify_query` (graph.py lines 28-97) -/

/-- The `allowed` label list inside `classify_query`. -/
def allowedLabels : List String :=
  ["billing_account", "network_troubleshooting", "service_recommendation",
   "knowledge_retrieval", "off_topic"]

/-- `classify_query` from graph.py.  `modelOutput` is the outcome of
`chain.invoke(...)`: `.ok content` is the raw `response.content`,
`.error e` means the model call raised.  The raw content is stripped and
lower-cased, coerced to `"knowledge_retrieval"` when not in `allowed`,
and any exception also yields `"knowledge_retrieval"`. -/
def classify_query (modelOutput : Except String String)
    (state : TelecomAssistantState) : TelecomAssistantState :=
  match modelOutput with
  | .error _ => { state with classification := "knowledge_retrieval" }
  | .ok content =>
      let classification := pyLower (pyStrip content)
      let classification :=
        if classification ∈ allowedLabels then classification
        else "knowledge_retrieval"
      { state with classification := classification }

/-! ### `route_query` (graph.py lines 103-117) -/

/-- The `mapping` dict inside `route_query`. -/
def routeMapping : List (String × String) :=
  [("billing_account", "crew_ai_node"),
   ("network_troubleshooting", "autogen_node"),
   ("service_recommendation", "langchain_node"),
   ("knowledge_retrieval", "llamaindex_node"),
   ("off_topic", "fallback_handler")]

/-- `route_query` from graph.py: `mapping.get(classification, "fallback_handler")`. -/
def route_query (state : TelecomAssistantState) : String :=
  match routeMapping.lookup state.classification with
  | some next_step => next_step
  | none => "fallback_handler"

/-! ### Domain handler nodes (graph.py lines 123-314)

Each node takes `load` (outcome of importing its backend module) and
`backend` (outcome of calling the backend function).  A node returning
`Except.error e` means the node itself raises `e` past its boundary. -/

/-- The `fail_msg` built in the except branch of crew_ai_node. -/
def crewFailMsg (query : String) : String :=
  "Sorry, we encountered a billing system issue while processing: \x27" ++ query ++
  "\x27. Our billing support team can assist further."

/-- `crew_ai_node` from graph.py (billing).  The import of
`process_billing_query` sits inside the `try`, so both a load failure and a
backend failure reach the `except` branch. -/
def crew_ai_node (load : Except String Unit) (backend : Except String String)
    (state : TelecomAssistantState) : Except String TelecomAssistantState :=
  let query := state.query
  let outcome : Except String String :=
    match load with
    | .error e => .error e
    | .ok _ => backend
  match outcome with
  | .ok response =>
      .ok { state with intermediate_responses := [("crew_ai", response)] }
  | .error e =>
      .ok { state with
              intermediate_responses := [("crew_ai", crewFailMsg query)],
              error := some e }

/-- A Python value returned by `process_network_query`: a string, or
anything that is not a string (`isinstance(final_report, str)` fails). -/
inductive PyResult where
  | str : String → PyResult
  | nonstr : PyResult
deriving Repr, DecidableEq

/-- Literal chunk of the autogen fallback f-string between `{query}` and
the customer id interpolation. -/
def autogenChunk2 : String :=
  "\n\nSITUATION:\nWe encountered a technical issue while analyzing your network problem, but we can still provide general troubleshooting guidance.\n\nIMMEDIATE ACTIONS:\n1. Toggle Airplane Mode ON, wait 10 seconds, then toggle it OFF\n2. Restart your device completely\n3. Verify that mobile data is enabled in your device settings\n4. Remove and reinsert your SIM card carefully\n5. Reset network settings if the issue continues (Settings > Network > Reset)\n6. If none of these steps work, call our support team at 198\n\nADDITIONAL GUIDANCE:\n- Check if you\x27re in an area with good network coverage\n- Move to a different location and test the connection\n- Ensure your device software is up to date\n- Try using WiFi calling if available on your plan\n\nEXPECTED OUTCOME:\nIf the issue is device-related, these steps should resolve it within 15-30 minutes. For persistent problems, our technical team at 198 can provide advanced diagnostics.\n\nSUPPORT CONTACT:\n- Customer Service: 198 (available 24/7)\n- Reference your Customer ID: "

/-- Literal chunk of the autogen fallback f-string before `{str(e)}`. -/
def autogenChunk3 : String :=
  " when calling\n\nTechnical Note: "

/-- Literal chunk of the autogen fallback f-string before `{query}`. -/
def autogenChunk1 : String :=
  "\nNETWORK TROUBLESHOOTING ANALYSIS\n\nREPORTED ISSUE:\n"

/-- The `fallback` f-string built in the except branch of autogen_node;
`e` is `str(e)` of the caught exception. -/
def autogenFallback (query customerId e : String) : String :=
  autogenChunk1 ++ query ++ autogenChunk2 ++ customerId ++
  autogenChunk3 ++ e ++ "\n"

/-- `autogen_node` from graph.py (network troubleshooting).  A reply that is
not a string, or whose stripped length is below 20, raises
`ValueError("Invalid or empty AutoGen response")` inside the `try`, which the
`except` branch then handles like any backend failure. -/
def autogen_node (load : Except String Unit) (backend : Except String PyResult)
    (state : TelecomAssistantState) : Except String TelecomAssistantState :=
  let query := state.query
  let customer_info := state.customer_info
  let outcome : Except String String :=
    match load with
    | .error e => .error e
    | .ok _ =>
        match backend with
        | .error e => .error e
        | .ok (.str final_report) =>
            if pyLen (pyStrip final_report) < 20 then
              .error "Invalid or empty AutoGen response"
            else .ok final_report
        | .ok .nonstr => .error "Invalid or empty AutoGen response"
  match outcome with
  | .ok final_report =>
      .ok { state with
              intermediate_responses := [("autogen", final_report)],
              error := none }
  | .error e =>
      .ok { state with
              intermediate_responses :=
                [("autogen",
                  autogenFallback query (dictGet customer_info "customer_id" "N/A") e)],
              error := some ("AutoGen error: " ++ e) }

/-- The `fallback` f-string built in the except branch of langchain_node. -/
def langchainFallback (query : String) : String :=
  "\nI’m sorry! I couldn’t generate a service recommendation due to an internal error.\n\nYour query was:\n" ++
  query ++
  "\n\nPlease try again or contact customer support.\n        "

/-- `langchain_node` from graph.py (service recommendation).  The import of
`process_service_query` happens BEFORE the `try` block, so a load failure
propagates out of the node (`Except.error`); only backend-call failures are
caught. -/
def langchain_node (load : Except String Unit) (backend : Except String String)
    (state : TelecomAssistantState) : Except String TelecomAssistantState :=
  match load with
  | .error e => .error e
  | .ok _ =>
      let query := state.query
      match backend with
      | .ok response =>
          .ok { state with
                  intermediate_responses := [("langchain", response)],
                  error := none }
      | .error e =>
          .ok { state with
                  intermediate_responses := [("langchain", langchainFallback query)],
                  error := some e }

/-- `llamaindex_node` from graph.py (knowledge retrieval).  The import sits
inside the `try`; the `except` branch replaces the answer but leaves the
`error` field untouched. -/
def llamaindex_node (load : Except String Unit) (backend : Except String String)
    (state : TelecomAssistantState) : Except String TelecomAssistantState :=
  let outcome : Except String String :=
    match load with
    | .error e => .error e
    | .ok _ => backend
  match outcome with
  | .ok response =>
      .ok { state with intermediate_responses := [("llamaindex", response)] }
  | .error _ =>
      .ok { state with
              intermediate_responses :=
                [("llamaindex", "Error querying technical documentation.")] }

/-! ### `fallback_handler` (graph.py lines 320-454) -/

/-- Keyword list of the joke/humor branch of fallback_handler. -/
def jokeWords : List String := ["joke", "funny", "laugh", "humor"]

/-- Keyword list of the greeting branch of fallback_handler. -/
def greetingWords : List String :=
  ["hello", "hi", "hey", "good morning", "good afternoon", "good evening"]

/-- Keyword list of the thanks/farewell branch of fallback_handler. -/
def thanksWords : List String :=
  ["thank", "thanks", "appreciate", "goodbye", "bye", "see you"]

/-- Canned response of the joke/humor branch of fallback_handler. -/
def fallbackJokeMsg : String :=
  "\nAPPRECIATE YOUR INTEREST\n\nI appreciate the lighter moment, but I\x27m specifically designed to help with telecom services!\n\nHere\x27s what I can assist you with:\n\nBILLING & PAYMENTS:\n- View your bills and payment history\n- Understand charges and fees\n- Set up payment plans\n- Check outstanding balances\n\nNETWORK ISSUES:\n- Diagnose connectivity problems\n- Check coverage in your area\n- Troubleshoot slow speeds\n- Report network outages\n\nPLAN RECOMMENDATIONS:\n- Find the best plan for your needs\n- Compare data packages\n- International roaming options\n- Family and group plans\n\nTECHNICAL SUPPORT:\n- Device setup and configuration\n- APN settings\n- VoLTE and VoWiFi setup\n- Feature activation\n\nHow can I help you with your telecom needs today?\n"

/-- Canned response of the greeting branch of fallback_handler. -/
def fallbackGreetingMsg : String :=
  "\nHELLO AND WELCOME\n\nThank you for reaching out! I\x27m your Telecom Service Assistant, here to help you with all your mobile service needs.\n\nI CAN HELP YOU WITH:\n\n1. BILLING QUESTIONS\n   - Review your bill\n   - Explain charges\n   - Payment assistance\n\n2. NETWORK PROBLEMS\n   - Signal issues\n   - Slow internet\n   - Coverage concerns\n\n3. PLAN RECOMMENDATIONS\n   - Find better plans\n   - Upgrade options\n   - Data packages\n\n4. TECHNICAL SUPPORT\n   - Device settings\n   - Feature activation\n   - Troubleshooting\n\nWhat would you like assistance with today?\n"

/-- Canned response of the thanks/farewell branch of fallback_handler. -/
def fallbackThanksMsg : String :=
  "\nYOU\x27RE WELCOME\n\nThank you for using our Telecom Service Assistant! I\x27m glad I could help.\n\nNEED MORE HELP?\n\nFeel free to ask if you have any other questions about:\n- Your bill or account\n- Network connectivity\n- Service plans\n- Technical support\n\nSUPPORT CONTACTS:\n- Customer Service: 198\n- Technical Support: Available 24/7\n- Website: www.telecom.com\n\nHave a great day!\n"

/-- Canned response of the generic off-topic branch of fallback_handler. -/
def fallbackGenericMsg : String :=
  "\nQUERY NOT RECOGNIZED\n\nI\x27m specialized in telecom services and may not be able to help with that particular request.\n\nI CAN ASSIST YOU WITH:\n\nBILLING & ACCOUNT MANAGEMENT:\n- Bill inquiries and explanations\n- Payment plans and history\n- Account settings and updates\n\nNETWORK TROUBLESHOOTING:\n- Signal and connectivity issues\n- Coverage quality checks\n- Speed and performance problems\n\nSERVICE RECOMMENDATIONS:\n- Plan comparisons and suggestions\n- Data package options\n- International roaming plans\n\nTECHNICAL DOCUMENTATION:\n- Device configuration guides\n- Feature setup instructions\n- APN and network settings\n\nPlease ask me a question related to these telecom services, and I\x27ll be happy to help!\n\nEXAMPLES:\n- \"Why is my bill higher this month?\"\n- \"I have poor signal at home, can you help?\"\n- \"What\x27s the best plan for heavy data usage?\"\n- \"How do I enable VoLTE on my device?\"\n"

/-- `fallback_handler` from graph.py: lower-case the query, test the three
keyword lists in order with Python substring containment, and return the
matching canned message (generic otherwise). -/
def fallback_handler (state : TelecomAssistantState) : TelecomAssistantState :=
  let query := pyLower state.query
  let response :=
    if jokeWords.any (fun word => pyIn word query) then fallbackJokeMsg
    else if greetingWords.any (fun word => pyIn word query) then fallbackGreetingMsg
    else if thanksWords.any (fun word => pyIn word query) then fallbackThanksMsg
    else fallbackGenericMsg
  { state with intermediate_responses := [("fallback", response)] }

/-! ### `formulate_response` (graph.py lines 460-473) -/

/-- `formulate_response` from graph.py: take the first value of
`intermediate_responses` (a placeholder when empty) and append the
query-type marker naming the classification. -/
def formulate_response (state : TelecomAssistantState) : TelecomAssistantState :=
  let responses := state.intermediate_responses
  let final :=
    match responses with
    | [] => "I couldn\x27t generate a response."
    | (_, v) :: _ => v
  let classification := state.classification
  { state with final_response := final ++ "\n\n*Query Type: " ++ classification ++ "*" }

/-! ### `create_graph` (graph.py lines 479-520) -/

/-- The nodes added to the `StateGraph` in create_graph, plus `END`. -/
inductive GraphNode where
  | classifyQuery
  | crewAiNode
  | autogenNode
  | langchainNode
  | llamaindexNode
  | fallbackHandler
  | formulateResponse
  | END
deriving Repr, DecidableEq

/-- The conditional-edges dict attached to `classify_query` in create_graph. -/
def conditionalEdges : List (String × GraphNode) :=
  [("crew_ai_node", .crewAiNode),
   ("autogen_node", .autogenNode),
   ("langchain_node", .langchainNode),
   ("llamaindex_node", .llamaindexNode),
   ("fallback_handler", .fallbackHandler)]

/-- `workflow.set_entry_point("classify_query")`. -/
def entryPoint : GraphNode := .classifyQuery

/-- The handler nodes of the graph (targets of the conditional edges). -/
def handlerNodes : List GraphNode :=
  [.crewAiNode, .autogenNode, .langchainNode, .llamaindexNode, .fallbackHandler]

/-- The edge relation of the compiled graph: from `classify_query` the
conditional edges keyed by `route_query` on the current state; from every
handler the fixed edge to `formulate_response`; from there to `END`. -/
def nextNode (state : TelecomAssistantState) : GraphNode → Option GraphNode
  | .classifyQuery => conditionalEdges.lookup (route_query state)
  | .crewAiNode => some .formulateResponse
  | .autogenNode => some .formulateResponse
  | .langchainNode => some .formulateResponse
  | .llamaindexNode => some .formulateResponse
  | .fallbackHandler => some .formulateResponse
  | .formulateResponse => some .END
  | .END => none

/-! ### `utils/database.py` -/

/-- One row of the `customers` table, with the column aliases used by the
SELECT in `get_customer_by_id` (`phone_number as phone`,
`service_plan_id as plan_id`, `account_status as status`). -/
structure CustomerRow where
  customer_id : String
  name : String
  email : String
  phone : String
  plan_id : String
  status : String
deriving Repr, DecidableEq

/-- The dict returned by `authenticate_customer`: a customer row plus the
`user_type` tag. -/
structure CustomerProfile where
  customer_id : String
  name : String
  email : String
  phone : String
  plan_id : String
  status : String
  user_type : String
deriving Repr, DecidableEq

/-- `get_customer_by_id` from database.py: the first row of `customers`
whose `customer_id` equals the argument exactly (SQLite `=` on TEXT is
case-sensitive), or `none`. -/
def get_customer_by_id (customers : List CustomerRow) (customer_id : String) :
    Option CustomerRow :=
  customers.find? (fun row => row.customer_id == customer_id)

/-- The fixed administrator profile returned for the admin sentinel. -/
def adminProfile : CustomerProfile :=
  { customer_id := "admin", name := "Administrator", email := "admin@telecom.com",
    phone := "N/A", plan_id := "N/A", status := "admin", user_type := "admin" }

/-- `customer['user_type'] = t` applied to a row fetched from the table. -/
def withUserType (row : CustomerRow) (t : String) : CustomerProfile :=
  { customer_id := row.customer_id, name := row.name, email := row.email,
    phone := row.phone, plan_id := row.plan_id, status := row.status,
    user_type := t }

/-- `authenticate_customer` from database.py: the sentinel `"admin"` is
matched case-insensitively and returns the fixed administrator profile;
any other identifier is looked up exactly in the customer table and the
result (when found) is tagged `user_type = "customer"`. -/
def authenticate_customer (customers : List CustomerRow) (customer_id : String) :
    Option CustomerProfile :=
  if pyLower customer_id = "admin" then some adminProfile
  else
    match get_customer_by_id customers customer_id with
    | some customer => some (withUserType customer "customer")
    | none => none

/-! ### Concrete states used to instantiate the theorems -/

/-- A concrete request state, as the UI layer would create it. -/
def s0 : TelecomAssistantState :=
  { query := "tell me a joke", customer_info := [("customer_id", "CUST001")],
    classification := "", intermediate_responses := [], final_response := "",
    chat_history := [], error := none }

/-- A concrete customer table with one row. -/
def customers1 : List CustomerRow :=
  [{ customer_id := "CUST001", name := "Asha Rao", email := "asha@example.com",
     phone := "9990001111", plan_id := "PLAN5", status := "active" }]

/-! ### Theorems -/

/-- C1: for every model outcome, `classify_query` returns a state whose
classification lies in the closed five-label set; the raw output is
stripped and lower-cased, any non-matching output is coerced to
`knowledge_retrieval`, and a raised model call likewise yields
`knowledge_retrieval` without aborting (the function is total). -/
theorem classify_query_always_canonical (modelOutput : Except String String)
    (state : TelecomAssistantState) :
    (classify_query modelOutput state).classification ∈ allowedLabels ∧
    (∀ e, classify_query (.error e) state
        = { state with classification := "knowledge_retrieval" }) ∧
    (∀ content, pyLower (pyStrip content) ∉ allowedLabels →
        classify_query (.ok content) state
          = { state with classification := "knowledge_retrieval" }) ∧
    (∀ content, pyLower (pyStrip content) ∈ allowedLabels →
        (classify_query (.ok content) state).classification
          = pyLower (pyStrip content)) := by
  refine ⟨?_, fun e => rfl, fun content h => ?_, fun content h => ?_⟩
  · cases modelOutput with
    | error e => simp [classify_query, allowedLabels]
    | ok content =>
        show (if pyLower (pyStrip content) ∈ allowedLabels
              then pyLower (pyStrip content) else "knowledge_retrieval") ∈ allowedLabels
        by_cases h : pyLower (pyStrip content) ∈ allowedLabels
        · rwa [if_pos h]
        · rw [if_neg h]; decide
  · simp [classify_query, h]
  · simp [classify_query, h]

/-- Witness for C1 at a concrete adversarial model output. -/
theorem classify_query_always_canonical_witness :
    (classify_query (.ok "BANANA!") s0).classification ∈ allowedLabels ∧
    classify_query (.ok "BANANA!") s0
      = { s0 with classification := "knowledge_retrieval" } :=
  ⟨(classify_query_always_canonical (.ok "BANANA!") s0).1,
   (classify_query_always_canonical (.ok "BANANA!") s0).2.2.1 "BANANA!" (by decide)⟩

/-- C2: `route_query` is a total deterministic pure function of the
classification label: each canonical label goes to its unique handler node,
any other label (the empty string included) goes to the fallback handler,
and two states with the same label route identically. -/
theorem route_query_total_deterministic (state : TelecomAssistantState) :
    (state.classification = "billing_account" → route_query state = "crew_ai_node") ∧
    (state.classification = "network_troubleshooting" → route_query state = "autogen_node") ∧
    (state.classification = "service_recommendation" → route_query state = "langchain_node") ∧
    (state.classification = "knowledge_retrieval" → route_query state = "llamaindex_node") ∧
    (state.classification = "off_topic" → route_query state = "fallback_handler") ∧
    (state.classification ∉ allowedLabels → route_query state = "fallback_handler") ∧
    (∀ t : TelecomAssistantState, t.classification = state.classification →
        route_query t = route_query state) := by
  refine ⟨fun h => by simp [route_query, routeMapping, List.lookup, h],
          fun h => by simp [route_query, routeMapping, List.lookup, h],
          fun h => by simp [route_query, routeMapping, List.lookup, h],
          fun h => by simp [route_query, routeMapping, List.lookup, h],
          fun h => by simp [route_query, routeMapping, List.lookup, h],
          fun h => ?_, fun t h => by simp [route_query, h]⟩
  simp [allowedLabels] at h
  obtain ⟨h1, h2, h3, h4, h5⟩ := h
  have e1 : (state.classification == "billing_account") = false := by simpa using h1
  have e2 : (state.classification == "network_troubleshooting") = false := by simpa using h2
  have e3 : (state.classification == "service_recommendation") = false := by simpa using h3
  have e4 : (state.classification == "knowledge_retrieval") = false := by simpa using h4
  have e5 : (state.classification == "off_topic") = false := by simpa using h5
  simp [route_query, routeMapping, List.lookup, e1, e2, e3, e4, e5]

/-- Witness for C2 at a concrete label. -/
theorem route_query_total_deterministic_witness :
    route_query { s0 with classification := "billing_account" } = "crew_ai_node" :=
  (route_query_total_deterministic _).1 rfl

/-- `pyStartsWith` decides the list prefix relation. -/
theorem pyStartsWith_iff (n : List Char) : ∀ h : List Char,
    (pyStartsWith n h = true ↔ n <+: h) := by
  induction n with
  | nil => intro h; simp [pyStartsWith, List.nil_prefix]
  | cons a as ih =>
      intro h
      cases h with
      | nil => simp [pyStartsWith, List.prefix_nil]
      | cons b bs =>
          simp [pyStartsWith, Bool.and_eq_true, beq_iff_eq, ih, List.cons_prefix_cons]

/-- `pyInAux` decides the list infix relation. -/
theorem pyInAux_iff (n : List Char) : ∀ h : List Char,
    (pyInAux n h = true ↔ n <:+: h) := by
  intro h
  induction h with
  | nil =>
      show pyStartsWith n [] = true ↔ n <:+: []
      rw [pyStartsWith_iff]
      simp [List.prefix_nil, List.infix_nil]
  | cons a t ih =>
      show (if pyStartsWith n (a :: t) then true else pyInAux n t) = true ↔ n <:+: a :: t
      by_cases hp : pyStartsWith n (a :: t) = true
      · rw [if_pos hp]
        exact iff_of_true rfl
          (List.infix_cons_iff.mpr (Or.inl ((pyStartsWith_iff n _).mp hp)))
      · rw [if_neg hp, ih, List.infix_cons_iff]
        have hnp : ¬ n <+: a :: t := fun hc => hp ((pyStartsWith_iff n _).mpr hc)
        constructor
        · exact Or.inr
        · rintro (hc | hc)
          · exact absurd hc hnp
          · exact hc

/-- `pyIn` agrees with the contiguous-substring (infix) relation. -/
theorem pyIn_iff (needle hay : String) :
    pyIn needle hay = true ↔ needle.data <:+: hay.data :=
  pyInAux_iff needle.data hay.data

/-- The exception text interpolated into the autogen fallback occurs in it as
a substring, whatever is appended afterwards. -/
theorem pyIn_autogenFallback_append (q c e r : String) :
    pyIn e (autogenFallback q c e ++ r) = true := by
  rw [pyIn_iff]
  exact ⟨(autogenChunk1 ++ q ++ autogenChunk2 ++ c ++ autogenChunk3).data,
         ("\n" ++ r).data,
         by simp [autogenFallback, String.data_append, List.append_assoc]⟩

/-- A string ending in the query-type marker is never empty. -/
theorem tag_append_ne_empty (x c : String) :
    x ++ "\n\n*Query Type: " ++ c ++ "*" ≠ "" := by
  intro h
  have hlen := congrArg String.length h
  rw [String.length_append, String.length_append, String.length_append] at hlen
  have h15 : ("\n\n*Query Type: " : String).length = 15 := by decide
  have h1 : ("*" : String).length = 1 := by decide
  have h0 : ("" : String).length = 0 := by decide
  rw [h15, h1, h0] at hlen
  omega

/-- C5: when `intermediate_responses` holds exactly one entry,
`formulate_response` sets `final_response` to that entry followed by the
query-type marker naming the classification; when it is empty, the generic
placeholder is used instead; and `final_response` is never empty. -/
theorem formulate_response_spec (s : TelecomAssistantState) :
    (∀ k v, s.intermediate_responses = [(k, v)] →
        (formulate_response s).final_response
          = v ++ "\n\n*Query Type: " ++ s.classification ++ "*") ∧
    (s.intermediate_responses = [] →
        (formulate_response s).final_response
          = "I couldn\x27t generate a response." ++ "\n\n*Query Type: "
              ++ s.classification ++ "*") ∧
    (formulate_response s).final_response ≠ "" := by
  refine ⟨fun k v h => by simp [formulate_response, h],
          fun h => by simp [formulate_response, h], ?_⟩
  cases hr : s.intermediate_responses with
  | nil =>
      have h2 : (formulate_response s).final_response
          = "I couldn\x27t generate a response." ++ "\n\n*Query Type: "
              ++ s.classification ++ "*" := by simp [formulate_response, hr]
      rw [h2]; exact tag_append_ne_empty _ _
  | cons p t =>
      obtain ⟨k, v⟩ := p
      have h2 : (formulate_response s).final_response
          = v ++ "\n\n*Query Type: " ++ s.classification ++ "*" := by
        simp [formulate_response, hr]
      rw [h2]; exact tag_append_ne_empty _ _

/-- Witness for C5 at a concrete single-entry state. -/
theorem formulate_response_spec_witness :
    (formulate_response { s0 with
        classification := "billing_account"
        intermediate_responses := [("crew_ai", "BILLING ANSWER")] }).final_response
      = "BILLING ANSWER" ++ "\n\n*Query Type: " ++ "billing_account" ++ "*" :=
  (formulate_response_spec _).1 "crew_ai" "BILLING ANSWER" rfl

/-- C3 counterexample: when the network handler backend raises an exception
whose text is "XYZZY", that text appears verbatim as a substring of the
user-visible final_response (inside the Technical Note line of the autogen
fallback), refuting the claim that exception detail never reaches
final_response. -/
theorem autogen_exception_text_in_final_response :
    ((autogen_node (.ok ()) (.error "XYZZY") s0).map
        (fun s1 => pyIn "XYZZY" (formulate_response s1).final_response)).toOption
      = some true := by decide

/-- C3 amended: on a backend exception every handler still yields a
non-empty final_response; for the billing, service and knowledge handlers
the user-visible text is independent of the exception text (recorded, for
billing and service, only in the diagnostic error field) — but the network
handler embeds the exception text in its fallback, so there it does appear
in final_response. -/
theorem handler_failure_exception_confinement (e1 e2 : String)
    (s : TelecomAssistantState) :
    ((crew_ai_node (.ok ()) (.error e1) s).map
        (fun s1 => (formulate_response s1).final_response)
      = (crew_ai_node (.ok ()) (.error e2) s).map
        (fun s1 => (formulate_response s1).final_response)) ∧
    ((langchain_node (.ok ()) (.error e1) s).map
        (fun s1 => (formulate_response s1).final_response)
      = (langchain_node (.ok ()) (.error e2) s).map
        (fun s1 => (formulate_response s1).final_response)) ∧
    ((llamaindex_node (.ok ()) (.error e1) s).map
        (fun s1 => (formulate_response s1).final_response)
      = (llamaindex_node (.ok ()) (.error e2) s).map
        (fun s1 => (formulate_response s1).final_response)) ∧
    (∃ s1, crew_ai_node (.ok ()) (.error e1) s = .ok s1 ∧
        (formulate_response s1).final_response ≠ "" ∧ s1.error = some e1) ∧
    (∃ s1, langchain_node (.ok ()) (.error e1) s = .ok s1 ∧
        (formulate_response s1).final_response ≠ "" ∧ s1.error = some e1) ∧
    (∃ s1, llamaindex_node (.ok ()) (.error e1) s = .ok s1 ∧
        (formulate_response s1).final_response ≠ "") ∧
    (∃ s1, autogen_node (.ok ()) (.error e1) s = .ok s1 ∧
        (formulate_response s1).final_response ≠ "" ∧
        s1.error = some ("AutoGen error: " ++ e1) ∧
        pyIn e1 (formulate_response s1).final_response = true) := by
  refine ⟨rfl, rfl, rfl, ⟨_, rfl, ?_, rfl⟩, ⟨_, rfl, ?_, rfl⟩, ⟨_, rfl, ?_⟩,
          ⟨_, rfl, ?_, rfl, ?_⟩⟩
  · show crewFailMsg s.query ++ "\n\n*Query Type: " ++ s.classification ++ "*" ≠ ""
    exact tag_append_ne_empty _ _
  · show langchainFallback s.query ++ "\n\n*Query Type: " ++ s.classification ++ "*" ≠ ""
    exact tag_append_ne_empty _ _
  · show ("Error querying technical documentation." : String)
        ++ "\n\n*Query Type: " ++ s.classification ++ "*" ≠ ""
    exact tag_append_ne_empty _ _
  · show autogenFallback s.query (dictGet s.customer_info "customer_id" "N/A") e1
        ++ "\n\n*Query Type: " ++ s.classification ++ "*" ≠ ""
    exact tag_append_ne_empty _ _
  · show pyIn e1 (autogenFallback s.query (dictGet s.customer_info "customer_id" "N/A") e1
        ++ "\n\n*Query Type: " ++ s.classification ++ "*") = true
    simpa [String.append_assoc] using
      pyIn_autogenFallback_append s.query (dictGet s.customer_info "customer_id" "N/A")
        e1 ("\n\n*Query Type: " ++ (s.classification ++ "*"))

/-- C4 counterexample: the service handler does not catch a failure that
occurs while loading its backend module — the import happens before the
try block, so the exception propagates past the handler boundary instead of
degrading to a fallback state. -/
theorem langchain_load_failure_propagates :
    langchain_node (.error "No module named agents.service_agents") (.ok "plans") s0
      = .error "No module named agents.service_agents" := rfl

/-- C4 amended: the billing, network and knowledge handlers never raise past
their boundary — for every load and backend outcome they return a state with
a populated handler-result entry — and the service handler does so whenever
its backend module loads; but a load failure of the service backend module
propagates out of that handler uncaught. -/
theorem handlers_never_raise_except_service_load
    (load : Except String Unit) (backend : Except String String)
    (backendN : Except String PyResult) (s : TelecomAssistantState) :
    (∃ s1, crew_ai_node load backend s = .ok s1 ∧ s1.intermediate_responses ≠ []) ∧
    (∃ s1, autogen_node load backendN s = .ok s1 ∧ s1.intermediate_responses ≠ []) ∧
    (∃ s1, llamaindex_node load backend s = .ok s1 ∧ s1.intermediate_responses ≠ []) ∧
    (∃ s1, langchain_node (.ok ()) backend s = .ok s1 ∧ s1.intermediate_responses ≠ []) ∧
    (∀ e, langchain_node (.error e) backend s = .error e) := by
  refine ⟨?_, ?_, ?_, ?_, fun e => rfl⟩
  · cases load with
    | error e => exact ⟨_, rfl, by simp⟩
    | ok u =>
        cases backend with
        | ok r => exact ⟨_, rfl, by simp⟩
        | error e => exact ⟨_, rfl, by simp⟩
  · cases load with
    | error e => exact ⟨_, rfl, by simp⟩
    | ok u =>
        cases backendN with
        | error e => exact ⟨_, rfl, by simp⟩
        | ok pr =>
            cases pr with
            | nonstr => exact ⟨_, rfl, by simp⟩
            | str r =>
                by_cases hlt : pyLen (pyStrip r) < 20
                · refine ⟨{ s with
                      intermediate_responses := [("autogen",
                        autogenFallback s.query
                          (dictGet s.customer_info "customer_id" "N/A")
                          "Invalid or empty AutoGen response")]
                      error := some ("AutoGen error: "
                        ++ "Invalid or empty AutoGen response") }, ?_, by simp⟩
                  simp [autogen_node, hlt]
                · refine ⟨{ s with
                      intermediate_responses := [("autogen", r)]
                      error := none }, ?_, by simp⟩
                  simp [autogen_node, hlt]
  · cases load with
    | error e => exact ⟨_, rfl, by simp⟩
    | ok u =>
        cases backend with
        | ok r => exact ⟨_, rfl, by simp⟩
        | error e => exact ⟨_, rfl, by simp⟩
  · cases backend with
    | ok r => exact ⟨_, rfl, by simp⟩
    | error e => exact ⟨_, rfl, by simp⟩

/-- C6 counterexample: a thanks-category input and a farewell-category input
receive the identical canned message, so fallback_handler has only four
canned messages, not five category-specific ones. -/
theorem fallback_thanks_and_farewell_share_message :
    (fallback_handler { s0 with query := "thank you" }).intermediate_responses
      = (fallback_handler { s0 with query := "goodbye" }).intermediate_responses
    ∧ (fallback_handler { s0 with query := "thank you" }).intermediate_responses
      = [("fallback", fallbackThanksMsg)] := by
  constructor <;> decide

/-- C6 amended: fallback_handler is fully deterministic given the query and
the fixed word lists (it depends on nothing else in the state), inspects the
lower-cased query by substring/keyword matching, and returns one of FOUR
canned redirect messages — joke, greeting, a single shared thanks/farewell
message, and a generic one; for input "tell me a joke" it returns the joke
message, which redirects to supported telecom topics and does not contain
the word "error". -/
theorem fallback_handler_spec (s : TelecomAssistantState) :
    (∃ m, (fallback_handler s).intermediate_responses = [("fallback", m)] ∧
        m ∈ [fallbackJokeMsg, fallbackGreetingMsg, fallbackThanksMsg,
             fallbackGenericMsg]) ∧
    (∀ t : TelecomAssistantState, t.query = s.query →
        (fallback_handler t).intermediate_responses
          = (fallback_handler s).intermediate_responses) ∧
    (s.query = "tell me a joke" →
        (fallback_handler s).intermediate_responses
            = [("fallback", fallbackJokeMsg)] ∧
        pyIn "error" (pyLower fallbackJokeMsg) = false ∧
        pyIn "telecom services" fallbackJokeMsg = true) := by
  refine ⟨⟨_, rfl, ?_⟩, fun t h => by simp [fallback_handler, h], fun h => ⟨?_, by decide, by decide⟩⟩
  · show (if (jokeWords.any fun word => pyIn word (pyLower s.query)) = true
            then fallbackJokeMsg
          else if (greetingWords.any fun word => pyIn word (pyLower s.query)) = true
            then fallbackGreetingMsg
          else if (thanksWords.any fun word => pyIn word (pyLower s.query)) = true
            then fallbackThanksMsg
          else fallbackGenericMsg)
        ∈ [fallbackJokeMsg, fallbackGreetingMsg, fallbackThanksMsg, fallbackGenericMsg]
    split
    · simp
    · split
      · simp
      · split
        · simp
        · simp
  · simp only [fallback_handler, h]
    decide

/-- Witness for the amended C6 at the concrete joke input. -/
theorem fallback_handler_spec_witness :
    (fallback_handler s0).intermediate_responses = [("fallback", fallbackJokeMsg)] ∧
    pyIn "error" (pyLower fallbackJokeMsg) = false ∧
    pyIn "telecom services" fallbackJokeMsg = true :=
  (fallback_handler_spec s0).2.2 rfl

/-- A successful association-list lookup returns one of the stored values. -/
theorem lookup_val_mem {α β : Type} [BEq α] (l : List (α × β)) (k : α) (v : β)
    (h : l.lookup k = some v) : v ∈ l.map Prod.snd := by
  induction l with
  | nil => simp [List.lookup] at h
  | cons p t ih =>
      obtain ⟨a, b⟩ := p
      cases hk : (k == a) with
      | true =>
          simp [List.lookup, hk] at h
          simp [h]
      | false =>
          simp [List.lookup, hk] at h
          exact List.mem_cons_of_mem _ (ih h)

/-- C7: every execution of the compiled graph is strictly linear: entry at
classification, one conditional transition to exactly one handler chosen by
dispatch, then response formulation, then END; no edge re-enters
classification, a handler steps only to formulation (never to a second
handler), and a handler is entered only from the classification node. -/
theorem graph_strictly_linear (s : TelecomAssistantState) :
    entryPoint = GraphNode.classifyQuery ∧
    (∃ h, h ∈ handlerNodes ∧
        nextNode s entryPoint = some h ∧
        nextNode s h = some .formulateResponse ∧
        nextNode s .formulateResponse = some .END ∧
        nextNode s .END = none) ∧
    (∀ n : GraphNode, nextNode s n ≠ some .classifyQuery) ∧
    (∀ h1, h1 ∈ handlerNodes → nextNode s h1 = some .formulateResponse) ∧
    (∀ n h1, h1 ∈ handlerNodes → nextNode s n = some h1 → n = entryPoint) := by
  refine ⟨rfl, ?_, ?_, ?_, ?_⟩
  · by_cases c1 : s.classification = "billing_account"
    · exact ⟨.crewAiNode, by decide,
        by simp [nextNode, entryPoint, route_query, routeMapping, List.lookup,
                 conditionalEdges, c1], rfl, rfl, rfl⟩
    by_cases c2 : s.classification = "network_troubleshooting"
    · exact ⟨.autogenNode, by decide,
        by simp [nextNode, entryPoint, route_query, routeMapping, List.lookup,
                 conditionalEdges, c1, c2], rfl, rfl, rfl⟩
    by_cases c3 : s.classification = "service_recommendation"
    · exact ⟨.langchainNode, by decide,
        by simp [nextNode, entryPoint, route_query, routeMapping, List.lookup,
                 conditionalEdges, c1, c2, c3], rfl, rfl, rfl⟩
    by_cases c4 : s.classification = "knowledge_retrieval"
    · exact ⟨.llamaindexNode, by decide,
        by simp [nextNode, entryPoint, route_query, routeMapping, List.lookup,
                 conditionalEdges, c1, c2, c3, c4], rfl, rfl, rfl⟩
    by_cases c5 : s.classification = "off_topic"
    · exact ⟨.fallbackHandler, by decide,
        by simp [nextNode, entryPoint, route_query, routeMapping, List.lookup,
                 conditionalEdges, c1, c2, c3, c4, c5], rfl, rfl, rfl⟩
    · have e1 : (s.classification == "billing_account") = false := by simpa using c1
      have e2 : (s.classification == "network_troubleshooting") = false := by simpa using c2
      have e3 : (s.classification == "service_recommendation") = false := by simpa using c3
      have e4 : (s.classification == "knowledge_retrieval") = false := by simpa using c4
      have e5 : (s.classification == "off_topic") = false := by simpa using c5
      exact ⟨.fallbackHandler, by decide,
        by simp [nextNode, entryPoint, route_query, routeMapping, List.lookup,
                 conditionalEdges, e1, e2, e3, e4, e5], rfl, rfl, rfl⟩
  · intro n
    cases n
    case classifyQuery =>
        intro hc
        simp only [nextNode] at hc
        have hmem := lookup_val_mem conditionalEdges (route_query s) _ hc
        simp [conditionalEdges] at hmem
    all_goals simp [nextNode]
  · intro h1 hmem
    simp [handlerNodes] at hmem
    rcases hmem with rfl | rfl | rfl | rfl | rfl <;> rfl
  · intro n h1 hmem hn
    cases n
    case classifyQuery => rfl
    case END =>
        simp only [nextNode] at hn
        exact Option.noConfusion hn
    all_goals
      simp only [nextNode, Option.some.injEq] at hn
      subst hn
      simp [handlerNodes] at hmem

/-- Witness for C7: the graph step out of a concrete handler node. -/
theorem graph_strictly_linear_witness :
    nextNode s0 GraphNode.crewAiNode = some GraphNode.formulateResponse :=
  (graph_strictly_linear s0).2.2.2.1 GraphNode.crewAiNode (by decide)

/-- C8: authentication matches the customer identifier case-sensitively and
exactly against the table — tagging a found row with user_type "customer"
and returning none otherwise — except the sentinel "admin", matched
case-insensitively and answered with the fixed administrator profile. -/
theorem authenticate_customer_spec (customers : List CustomerRow)
    (customer_id : String) :
    (pyLower customer_id = "admin" →
        authenticate_customer customers customer_id = some adminProfile) ∧
    (pyLower customer_id ≠ "admin" →
        (∀ row, get_customer_by_id customers customer_id = some row →
            authenticate_customer customers customer_id
              = some (withUserType row "customer") ∧
            row.customer_id = customer_id ∧
            (withUserType row "customer").user_type = "customer") ∧
        (get_customer_by_id customers customer_id = none →
            authenticate_customer customers customer_id = none)) := by
  refine ⟨fun h => by simp [authenticate_customer, h],
          fun h => ⟨fun row hrow => ⟨?_, ?_, rfl⟩, fun hnone => ?_⟩⟩
  · simp [authenticate_customer, h, hrow]
  · simp only [get_customer_by_id] at hrow
    have hfind := List.find?_some hrow
    simpa using hfind
  · simp [authenticate_customer, h, hnone]

/-- Witness for C8: exact lookup of a concrete customer id. -/
theorem authenticate_customer_spec_witness :
    authenticate_customer customers1 "CUST001"
      = some (withUserType { customer_id := "CUST001", name := "Asha Rao"
                             email := "asha@example.com", phone := "9990001111"
                             plan_id := "PLAN5", status := "active" } "customer") :=
  (((authenticate_customer_spec customers1 "CUST001").2 (by decide)).1
    { customer_id := "CUST001", name := "Asha Rao", email := "asha@example.com"
      phone := "9990001111", plan_id := "PLAN5", status := "active" }
    (by decide)).1

/-- C9: every node leaves the query and customer_info fields unchanged, and
every node downstream of the classifier (the five handlers and the response
formulator) also leaves the classification unchanged — after classification
only intermediate_responses, error and final_response are ever updated. -/
theorem pipeline_frame_conditions (modelOutput : Except String String)
    (load : Except String Unit) (backend : Except String String)
    (backendN : Except String PyResult) (s : TelecomAssistantState) :
    ((classify_query modelOutput s).query = s.query ∧
     (classify_query modelOutput s).customer_info = s.customer_info ∧
     (classify_query modelOutput s).intermediate_responses = s.intermediate_responses ∧
     (classify_query modelOutput s).final_response = s.final_response ∧
     (classify_query modelOutput s).chat_history = s.chat_history ∧
     (classify_query modelOutput s).error = s.error) ∧
    (∀ s1, crew_ai_node load backend s = .ok s1 →
        s1.query = s.query ∧ s1.customer_info = s.customer_info ∧
        s1.classification = s.classification ∧ s1.chat_history = s.chat_history ∧
        s1.final_response = s.final_response) ∧
    (∀ s1, autogen_node load backendN s = .ok s1 →
        s1.query = s.query ∧ s1.customer_info = s.customer_info ∧
        s1.classification = s.classification ∧ s1.chat_history = s.chat_history ∧
        s1.final_response = s.final_response) ∧
    (∀ s1, langchain_node load backend s = .ok s1 →
        s1.query = s.query ∧ s1.customer_info = s.customer_info ∧
        s1.classification = s.classification ∧ s1.chat_history = s.chat_history ∧
        s1.final_response = s.final_response) ∧
    (∀ s1, llamaindex_node load backend s = .ok s1 →
        s1.query = s.query ∧ s1.customer_info = s.customer_info ∧
        s1.classification = s.classification ∧ s1.chat_history = s.chat_history ∧
        s1.final_response = s.final_response) ∧
    ((fallback_handler s).query = s.query ∧
     (fallback_handler s).customer_info = s.customer_info ∧
     (fallback_handler s).classification = s.classification ∧
     (fallback_handler s).chat_history = s.chat_history ∧
     (fallback_handler s).final_response = s.final_response ∧
     (fallback_handler s).error = s.error) ∧
    ((formulate_response s).query = s.query ∧
     (formulate_response s).customer_info = s.customer_info ∧
     (formulate_response s).classification = s.classification ∧
     (formulate_response s).chat_history = s.chat_history ∧
     (formulate_response s).intermediate_responses = s.intermediate_responses ∧
     (formulate_response s).error = s.error) := by
  refine ⟨?_, ?_, ?_, ?_, ?_, ?_, ?_⟩
  · cases modelOutput <;> exact ⟨rfl, rfl, rfl, rfl, rfl, rfl⟩
  · intro s1 h
    cases load with
    | error e =>
        simp only [crew_ai_node, Except.ok.injEq] at h
        subst h; exact ⟨rfl, rfl, rfl, rfl, rfl⟩
    | ok u =>
        cases backend with
        | ok r =>
            simp only [crew_ai_node, Except.ok.injEq] at h
            subst h; exact ⟨rfl, rfl, rfl, rfl, rfl⟩
        | error e =>
            simp only [crew_ai_node, Except.ok.injEq] at h
            subst h; exact ⟨rfl, rfl, rfl, rfl, rfl⟩
  · intro s1 h
    cases load with
    | error e =>
        simp only [autogen_node, Except.ok.injEq] at h
        subst h; exact ⟨rfl, rfl, rfl, rfl, rfl⟩
    | ok u =>
        cases backendN with
        | error e =>
            simp only [autogen_node, Except.ok.injEq] at h
            subst h; exact ⟨rfl, rfl, rfl, rfl, rfl⟩
        | ok pr =>
            cases pr with
            | nonstr =>
                simp only [autogen_node, Except.ok.injEq] at h
                subst h; exact ⟨rfl, rfl, rfl, rfl, rfl⟩
            | str r =>
                by_cases hlt : pyLen (pyStrip r) < 20
                · simp only [autogen_node, if_pos hlt, Except.ok.injEq] at h
                  subst h; exact ⟨rfl, rfl, rfl, rfl, rfl⟩
                · simp only [autogen_node, if_neg hlt, Except.ok.injEq] at h
                  subst h; exact ⟨rfl, rfl, rfl, rfl, rfl⟩
  · intro s1 h
    cases load with
    | error e =>
        simp only [langchain_node] at h
        exact Except.noConfusion h
    | ok u =>
        cases backend with
        | ok r =>
            simp only [langchain_node, Except.ok.injEq] at h
            subst h; exact ⟨rfl, rfl, rfl, rfl, rfl⟩
        | error e =>
            simp only [langchain_node, Except.ok.injEq] at h
            subst h; exact ⟨rfl, rfl, rfl, rfl, rfl⟩
  · intro s1 h
    cases load with
    | error e =>
        simp only [llamaindex_node, Except.ok.injEq] at h
        subst h; exact ⟨rfl, rfl, rfl, rfl, rfl⟩
    | ok u =>
        cases backend with
        | ok r =>
            simp only [llamaindex_node, Except.ok.injEq] at h
            subst h; exact ⟨rfl, rfl, rfl, rfl, rfl⟩
        | error e =>
            simp only [llamaindex_node, Except.ok.injEq] at h
            subst h; exact ⟨rfl, rfl, rfl, rfl, rfl⟩
  · exact ⟨rfl, rfl, rfl, rfl, rfl, rfl⟩
  · exact ⟨rfl, rfl, rfl, rfl, rfl, rfl⟩

/-- Witness for C9: the billing handler frame at a concrete state. -/
theorem pipeline_frame_conditions_witness :
    ({ s0 with intermediate_responses := [("crew_ai", "ANSWER")] }
        : TelecomAssistantState).query = s0.query ∧
    ({ s0 with intermediate_responses := [("crew_ai", "ANSWER")] }
        : TelecomAssistantState).customer_info = s0.customer_info ∧
    ({ s0 with intermediate_responses := [("crew_ai", "ANSWER")] }
        : TelecomAssistantState).classification = s0.classification ∧
    ({ s0 with intermediate_responses := [("crew_ai", "ANSWER")] }
        : TelecomAssistantState).chat_history = s0.chat_history ∧
    ({ s0 with intermediate_responses := [("crew_ai", "ANSWER")] }
        : TelecomAssistantState).final_response = s0.final_response :=
  (pipeline_frame_conditions (.ok "x") (.ok ()) (.ok "ANSWER")
      (.ok (.str "12345678901234567890")) s0).2.1
    { s0 with intermediate_responses := [("crew_ai", "ANSWER")] } rfl

/-- C10: the network handler discards a backend reply that is not a string
or whose stripped length is under 20: such replies are handled exactly like
a backend call that raises ValueError("Invalid or empty AutoGen response"),
so the canned troubleshooting fallback is shown with the error field set;
and a returned state with no error recorded can only arise from a reply of
stripped length at least 20. -/
theorem autogen_validity_threshold (s : TelecomAssistantState) (r : String) :
    (pyLen (pyStrip r) < 20 →
        autogen_node (.ok ()) (.ok (.str r)) s
          = autogen_node (.ok ()) (.error "Invalid or empty AutoGen response") s ∧
        autogen_node (.ok ()) (.ok (.str r)) s
          = .ok { s with
              intermediate_responses := [("autogen",
                autogenFallback s.query (dictGet s.customer_info "customer_id" "N/A")
                  "Invalid or empty AutoGen response")]
              error := some ("AutoGen error: "
                ++ "Invalid or empty AutoGen response") }) ∧
    (autogen_node (.ok ()) (.ok .nonstr) s
        = autogen_node (.ok ()) (.error "Invalid or empty AutoGen response") s) ∧
    (∀ s1, autogen_node (.ok ()) (.ok (.str r)) s = .ok s1 → s1.error = none →
        20 ≤ pyLen (pyStrip r)) := by
  refine ⟨fun hlt => ⟨by simp [autogen_node, if_pos hlt], by simp [autogen_node, if_pos hlt]⟩,
          rfl, fun s1 h1 h2 => ?_⟩
  by_cases hlt : pyLen (pyStrip r) < 20
  · exfalso
    simp only [autogen_node, if_pos hlt, Except.ok.injEq] at h1
    subst h1
    simp at h2
  · omega

/-- Witness for C10 at a concrete short backend reply. -/
theorem autogen_validity_threshold_witness :
    autogen_node (.ok ()) (.ok (.str "short")) s0
      = autogen_node (.ok ()) (.error "Invalid or empty AutoGen response") s0 :=
  ((autogen_validity_threshold s0 "short").1 (by decide)).1
